import Mathlib

/-
Verification development for the docuAI browser client.

The repository contains two variants of the same client script:
  * src/frontend/script.js        (the "script.js" variant), and
  * src/unnamed/part_000          (the "part_000" variant).

Both implement a document-upload-and-chat UI: a file is uploaded to a
backend, the returned summary is rendered, and questions are answered via
an ask endpoint whose answer is revealed character by character.

The embedding below translates the DOM-facing JavaScript into pure Lean:
DOM element contents become record fields of an explicit UI state, the
single-threaded event/timer loop becomes a step function over an event
type, and the two network calls become parameters describing the eventual
settlement of the request (network error, HTTP ok flag, optional parsed
JSON body).  The external markdown library (window.marked) is a parameter
of type Option (String -> String): some parse when the library is loaded,
none for the escape-and-break fallback implemented in the source.
-/

namespace DocuAI

/-! ## HTML escaping (escapeHtml in both variants)

`escapeHtml` assigns `textContent` and reads back `innerHTML`; the
browser serializes text by escaping the markup-significant characters
`&`, `<`, `>`.  We model this character map directly. -/

/-- One character of browser text-to-innerHTML serialization. -/
def escChar (c : Char) : List Char :=
  if c = '&' then ['&', 'a', 'm', 'p', ';']
  else if c = '<' then ['&', 'l', 't', ';']
  else if c = '>' then ['&', 'g', 't', ';']
  else [c]

/-- Serialization of a character list, used by `escapeHtml`. -/
def escList : List Char → List Char
  | [] => []
  | c :: cs => escChar c ++ escList cs

/-- `escapeHtml` from the source: set `textContent`, read `innerHTML`. -/
def escapeHtml (s : String) : String :=
  String.mk (escList s.data)

/-- Inverse direction of the browser serialization: parsing the three
entities back to characters.  Used to state that escaping loses no
information. -/
def unescList : List Char → List Char
  | [] => []
  | '&' :: 'a' :: 'm' :: 'p' :: ';' :: cs => '&' :: unescList cs
  | '&' :: 'l' :: 't' :: ';' :: cs => '<' :: unescList cs
  | '&' :: 'g' :: 't' :: ';' :: cs => '>' :: unescList cs
  | c :: cs => c :: unescList cs

/-! ## Markdown rendering (renderMarkdown in both variants) -/

/-- The regex replace `.replace(/\n/g, "<br>")` on the escaped text. -/
def brList : List Char → List Char
  | [] => []
  | c :: cs => if c = '\n' then '<' :: 'b' :: 'r' :: '>' :: brList cs
               else c :: brList cs

/-- `renderMarkdown(text)`: `marked.parse(text)` when the external library
is loaded, otherwise `escapeHtml(text).replace(/\n/g, "<br>")`. -/
def renderMarkdown (marked : Option (String → String)) (text : String) : String :=
  match marked with
  | some parse => parse text
  | none => String.mk (brList (escapeHtml text).data)

/-- The whitespace characters relevant to JavaScript
`String.prototype.trim` that can occur in a chat input. -/
def isJsWs (c : Char) : Bool :=
  c = ' ' || c = '\t' || c = '\n' || c = '\r'

/-- Drop leading whitespace from a character list. -/
def dropWs : List Char → List Char
  | [] => []
  | c :: cs => if isJsWs c then dropWs cs else c :: cs

/-- JavaScript `s.trim()`: strip leading and trailing whitespace. -/
def jsTrim (s : String) : String :=
  String.mk (dropWs ((dropWs s.data.reverse).reverse))

/-- JavaScript `a || d` for an optional string field of a parsed JSON
body: the default is used when the field is absent or is the empty
string (the only falsy string). -/
def jsDefault (a : Option String) (d : String) : String :=
  match a with
  | none => d
  | some s => if s = "" then d else s

/-! ## Chat log

The `chatMessages` container holds, in order: the pinned welcome entry
from the HTML, user bubbles (`addUserMessage`), system bubbles
(`addSystemMessage`), and assistant bubbles (`createAIBubble`, later
filled by the typing effect).  Each constructor stores the bubble's
displayed content. -/

inductive Msg where
  | welcome : Msg
  | user (content : String) : Msg
  | system (content : String) : Msg
  | ai (content : String) : Msg
deriving DecidableEq

/-- Whether a log entry is the pinned `.welcome-message` element. -/
def isWelcome : Msg → Bool
  | .welcome => true
  | _ => false

/-- Whether a log entry is an assistant bubble. -/
def isAi : Msg → Bool
  | .ai _ => true
  | _ => false

/-- `clearChat` keeps a clone of the first `.welcome-message` element (if
any) after wiping the container. -/
def keepWelcome (l : List Msg) : List Msg :=
  if l.any isWelcome then [Msg.welcome] else []

/-- Write `c` into the most recently appended assistant bubble: the
typing effect's `container` is the bubble created by the `createAIBubble`
call of the same exchange, which is the last assistant bubble in the
log. -/
def updateLastAi (c : String) : List Msg → List Msg
  | [] => []
  | m :: ms =>
    if ms.any isAi then m :: updateLastAi c ms
    else match m with
      | .ai _ => Msg.ai c :: ms
      | _ => m :: ms

/-! ## The typing effect (typeText in both variants)

`typeText` clears the container, then a `setInterval` callback runs:
set `container.textContent = text.slice(0, i)`, increment `i`, and once
`i > text.length` clear the interval, set `container.innerHTML =
renderMarkdown(text)`, clear `isTyping`, and re-enable the send button.
A `Reveal` is one live interval; one tick is `tickReveal`. -/

structure Reveal where
  text : String
  i : Nat
deriving DecidableEq

/-- One interval callback of `typeText`.  Returns the updated interval
state together with the prefix written to the container, or — when the
incremented index passes the length — the final rendered content. -/
def tickReveal (marked : Option (String → String)) (rv : Reveal) :
    (Reveal × String) ⊕ String :=
  if rv.text.length ≤ rv.i then Sum.inr (renderMarkdown marked rv.text)
  else Sum.inl ({ rv with i := rv.i + 1 }, rv.text.take rv.i)

/-- Run `n` interval callbacks; `Sum.inr` is the terminal container
content after the interval cleared itself. -/
def revealRun (marked : Option (String → String)) : Nat → Reveal → Reveal ⊕ String
  | 0, rv => Sum.inl rv
  | n + 1, rv =>
    match tickReveal marked rv with
    | Sum.inl (rv2, _) => revealRun marked n rv2
    | Sum.inr c => Sum.inr c

/-! ## Network settlements

`fetch` either rejects (network error) or resolves with a response
carrying an ok flag; `res.json()` then either rejects (malformed body,
modelled as `none`) or yields the parsed object, of which only the field
the code reads is retained. -/

structure AskBody where
  answer : Option String
deriving DecidableEq

inductive AskNet where
  | netError : AskNet
  | resp (ok : Bool) (body : Option AskBody) : AskNet
deriving DecidableEq

structure UploadBody where
  summary : Option String
deriving DecidableEq

inductive UploadNet where
  | netError : UploadNet
  | resp (ok : Bool) (body : Option UploadBody) : UploadNet
deriving DecidableEq

/-- The string `sendMessage` (script.js variant) hands to `typeText` once
the ask request settles.  The source awaits `res.json()` without ever
consulting `res.ok`, so the ok flag is ignored: only a fetch rejection or
a json-parse rejection reaches the catch block's fixed error string. -/
def askRevealText : AskNet → String
  | .netError => "❌ Error getting response"
  | .resp _ body =>
    match body with
    | none => "❌ Error getting response"
    | some b => jsDefault b.answer "No response."

/-! ## The script.js variant as a state/event system

The page is single-threaded; user actions, request settlements and
interval ticks are serialized events.  `St` collects the DOM state the
script reads or writes.  An in-flight ask request sits in `pending`
(script.js issues at most one, enforced by the `isTyping` guard — proved
below, not assumed: `pending` and `reveals` are unbounded lists).  A
whole upload (file change handler from selection to settlement) is one
event: no chat handler in the source can alter the upload fields in
between, and the converse interleavings do not affect the claims. -/

structure St where
  uploadAreaVisible : Bool
  processingVisible : Bool
  resultsVisible : Bool
  progressWidth : String
  summaryHtml : String
  alerts : Nat
  uploadRequests : Nat
  chatDisabled : Bool
  sendDisabled : Bool
  inputValue : String
  isTyping : Bool
  log : List Msg
  pending : List String
  reveals : List Reveal
deriving DecidableEq

/-- Initial page state: the HTML ships the upload area, a hidden
processing overlay, a zero-width progress fill, disabled chat controls,
and the pinned welcome message. -/
def init : St where
  uploadAreaVisible := true
  processingVisible := false
  resultsVisible := false
  progressWidth := "0%"
  summaryHtml := ""
  alerts := 0
  uploadRequests := 0
  chatDisabled := true
  sendDisabled := true
  inputValue := ""
  isTyping := false
  log := [Msg.welcome]
  pending := []
  reveals := []

inductive Ev where
  /-- file selection whose upload request eventually settles as `r` -/
  | upload (r : UploadNet) : Ev
  /-- the user edits the chat input (possible only while it is enabled) -/
  | types (v : String) : Ev
  /-- click on the send button (delivered only while it is enabled) -/
  | click : Ev
  /-- Enter in the chat input (delivered only while it is enabled) -/
  | enter : Ev
  /-- `sendQuickPrompt(p)` -/
  | quick (p : String) : Ev
  /-- the oldest in-flight ask request settles as `r` -/
  | settle (r : AskNet) : Ev
  /-- one callback of the oldest live `typeText` interval -/
  | tick : Ev
  /-- `clearChat()` -/
  | clear : Ev
  /-- `startNewSession()`, which is `window.location.reload()` -/
  | reload : Ev

/-- The catch block of the upload handler: `alert(...)` then
`resetUploadUI()` (script.js lines 79–91). -/
def uploadFail (s : St) : St :=
  { s with
    alerts := s.alerts + 1
    uploadAreaVisible := true
    processingVisible := false
    resultsVisible := false
    progressWidth := "0%" }

/-- The body of `sendMessage` up to the `fetch` call: the guard, then
`addUserMessage`, clearing the input, raising `isTyping`, disabling the
send button, `createAIBubble`, and registering the in-flight request. -/
def sendMessageCore (s : St) : St :=
  if jsTrim s.inputValue = "" ∨ s.isTyping = true then s
  else
    { s with
      log := s.log ++ [Msg.user (escapeHtml (jsTrim s.inputValue)), Msg.ai ""]
      inputValue := ""
      isTyping := true
      sendDisabled := true
      pending := s.pending ++ [jsTrim s.inputValue] }

/-- One serialized event of the script.js variant. -/
def step (marked : Option (String → String)) (s : St) : Ev → St
  | .upload r =>
    let s1 := { s with
      uploadAreaVisible := false
      processingVisible := true
      progressWidth := "30%"
      uploadRequests := s.uploadRequests + 1 }
    match r with
    | .netError => uploadFail s1
    | .resp ok body =>
      match body with
      | none => uploadFail s1
      | some b =>
        let s2 := { s1 with progressWidth := "100%" }
        if ok = true then
          { s2 with
            processingVisible := false
            resultsVisible := true
            summaryHtml := renderMarkdown marked (jsDefault b.summary "")
            chatDisabled := false
            sendDisabled := false
            log := s2.log ++ [Msg.system (escapeHtml "📄 Document uploaded successfully")] }
        else uploadFail s2
  | .types v => if s.chatDisabled = true then s else { s with inputValue := v }
  | .click => if s.sendDisabled = true then s else sendMessageCore s
  | .enter => if s.chatDisabled = true then s else sendMessageCore s
  | .quick p =>
    if s.chatDisabled = true then
      { s with log := s.log ++ [Msg.system (escapeHtml "⚠️ Please upload a document first")] }
    else sendMessageCore { s with inputValue := p }
  | .settle r =>
    match s.pending with
    | [] => s
    | _ :: rest =>
      { s with
        pending := rest
        log := updateLastAi "" s.log
        reveals := s.reveals ++ [⟨askRevealText r, 0⟩] }
  | .tick =>
    match s.reveals with
    | [] => s
    | rv :: rest =>
      match tickReveal marked rv with
      | Sum.inl (rv2, shown) =>
        { s with reveals := rv2 :: rest, log := updateLastAi shown s.log }
      | Sum.inr c =>
        { s with
          reveals := rest
          log := updateLastAi c s.log
          isTyping := false
          sendDisabled := false }
  | .clear =>
    { s with
      log := keepWelcome s.log ++ [Msg.system (escapeHtml "💬 Chat cleared")]
      inputValue := "" }
  | .reload => init

/-- Run a serialized event sequence from the initial page state. -/
def runEv (marked : Option (String → String)) (l : List Ev) : St :=
  l.foldl (step marked) init

/-! ## The part_000 variant

Only the parts of src/unnamed/part_000 that differ from script.js in
ways the claims depend on are modelled: the two progress-simulation
timers, `resetUploadUI`, `clearChat`, `startNewSession`, and the summary
default of the upload success path. -/

namespace P0

/-- `simulateSideLoading`: starting from `progress = 10`, the first
callback runs 500 ms after the file selection and each callback
increments the progress (clamped at 100), writes it to
`progressPercent`, and reschedules itself 80 ms later while the progress
is below 80.  Returns the list of (time in ms, displayed percent)
writes; the fuel bounds the recursion and 200 exceeds the 70 callbacks
that actually run. -/
def sideUpdate : Nat → Nat → Nat → List (Nat × Nat)
  | 0, _, _ => []
  | fuel + 1, progress, t =>
    let p := min (progress + 1) 100
    (t, p) :: (if p < 80 then sideUpdate fuel p (t + 80) else [])

def sideWrites : List (Nat × Nat) := sideUpdate 200 10 500

/-- `simulateProgress`: starting from `progress = 80`, the first callback
runs 1000 ms after the file selection; each callback increments the
progress, and while it is at most 100 writes it and reschedules 60 ms
later; once it passes 100 it writes "100%" and resolves the promise.
Returns the writes together with the resolution time, after which — and
only after which — the upload `fetch` is issued (`await
simulateProgress()` precedes the `fetch` in the handler). -/
def simUpdate : Nat → Nat → Nat → List (Nat × Nat) × Nat
  | 0, _, t => ([], t)
  | fuel + 1, progress, t =>
    let p := progress + 1
    if p > 100 then ([(t, 100)], t)
    else
      let r := simUpdate fuel p (t + 60)
      ((t, p) :: r.1, r.2)

def simResult : List (Nat × Nat) × Nat := simUpdate 200 80 1000

def simWrites : List (Nat × Nat) := simResult.1

/-- The time at which `simulateProgress` resolves and the upload request
is first issued; any response arrives no earlier than this. -/
def fetchStart : Nat := simResult.2

/-- All writes to the displayed progress percent during one upload of the
part_000 variant, from both concurrently scheduled timers. -/
def progressWrites : List (Nat × Nat) := sideWrites ++ simWrites

/-- The DOM state touched by the part_000 session operations. -/
structure State where
  uploadAreaVisible : Bool
  processingVisible : Bool
  successVisible : Bool
  resultsVisible : Bool
  fileInputValue : String
  progressPercent : String
  chatDisabled : Bool
  sendDisabled : Bool
  inputValue : String
  summaryHtml : String
  log : List Msg
deriving DecidableEq

/-- part_000 `resetUploadUI` (lines 180–187): restore the upload area,
hide the overlays, reset the progress percent to its 10% floor and empty
the file input. -/
def resetUploadUI (s : State) : State :=
  { s with
    uploadAreaVisible := true
    processingVisible := false
    successVisible := false
    resultsVisible := false
    progressPercent := "10%"
    fileInputValue := "" }

/-- part_000 `clearChat` (lines 255–265): wipe the log keeping a clone of
the welcome entry, reset the input, append the "chat cleared" notice. -/
def clearChat (s : State) : State :=
  { s with
    log := keepWelcome s.log ++
      [Msg.system (escapeHtml "💬 Chat cleared. You can continue asking questions about your document.")]
    inputValue := "" }

/-- part_000 `startNewSession` (lines 384–409): reset the upload
displays and the file input, clear the chat, disable the chat controls,
reset the summary to its placeholder, and append the "new session"
notice.  The function never touches `progressPercent`. -/
def startNewSession (s : State) : State :=
  let s1 := { s with
    uploadAreaVisible := true
    processingVisible := false
    successVisible := false
    resultsVisible := false
    fileInputValue := "" }
  let s2 := clearChat s1
  let s3 := { s2 with
    chatDisabled := true
    sendDisabled := true
    summaryHtml := "<p>Your AI-generated summary will appear here...</p>" }
  { s3 with
    log := s3.log ++ [Msg.system (escapeHtml "🔄 New session started. Upload a document to begin.")] }

/-- The summary string the part_000 success path extracts:
`data.summary || "Document processed successfully!"`. -/
def summaryText (b : UploadBody) : String :=
  jsDefault b.summary "Document processed successfully!"

/-- The summary HTML the part_000 success path renders. -/
def summaryHtmlOf (marked : Option (String → String)) (b : UploadBody) : String :=
  renderMarkdown marked (summaryText b)

end P0

/-! ## Reachability invariants of the chat system -/

/-- Single-flight invariant: at most one exchange is outstanding — either
one in-flight ask request or one live `typeText` interval — and
`isTyping` is raised exactly while one is. -/
def CInv (s : St) : Prop :=
  s.pending.length + s.reveals.length ≤ 1 ∧
    (s.isTyping = true ↔ s.pending.length + s.reveals.length = 1)

/-- While chat is disabled (no successful upload yet) the send button is
disabled too, and no exchange is or was outstanding. -/
def Inv (s : St) : Prop :=
  s.chatDisabled = true →
    s.sendDisabled = true ∧ s.pending = [] ∧ s.reveals = [] ∧ s.isTyping = false

/-! ## Predicates and concrete states used by the claims -/

/-- The failure taxonomy of the claim: network error, non-2xx HTTP
status, or malformed JSON body.  (Stated from the claim's words, to be
compared against what the code does.) -/
def askFailedClaim : AskNet → Prop
  | .netError => True
  | .resp ok body => ok = false ∨ body = none

/-- The failures the script.js `sendMessage` actually catches: a fetch
rejection or a `res.json()` rejection.  The HTTP status is never
consulted. -/
def askFailed : AskNet → Prop
  | .netError => True
  | .resp _ body => body = none

/-- The failures the upload handler catches: a fetch rejection, a
`res.json()` rejection, or `!res.ok`. -/
def uploadFailed : UploadNet → Prop
  | .netError => True
  | .resp ok body => body = none ∨ ok = false

/-- The three chat-submission entry points. -/
def isSubmit : Ev → Bool
  | .click => true
  | .enter => true
  | .quick _ => true
  | _ => false

/-- The trimmed question text a submission event would send. -/
def questionOf (s : St) : Ev → String
  | .quick p => jsTrim p
  | _ => jsTrim s.inputValue

/-- A reachable state in which an answer reveal is in progress: upload
succeeded, a question was sent, and the ask request has settled into a
live typing interval. -/
def c4ex : St :=
  runEv none
    [Ev.upload (UploadNet.resp true (some ⟨some "S"⟩)),
     Ev.types "q1", Ev.click,
     Ev.settle (AskNet.resp true (some ⟨some "ans"⟩))]

/-- A part_000 state after a finished upload: progress shows 100%. -/
def c7ex : P0.State where
  uploadAreaVisible := false
  processingVisible := false
  successVisible := false
  resultsVisible := true
  fileInputValue := ""
  progressPercent := "100%"
  chatDisabled := false
  sendDisabled := false
  inputValue := ""
  summaryHtml := ""
  log := [Msg.welcome]

/-- A state with chat enabled and a question typed. -/
def c10s : St :=
  { init with chatDisabled := false, sendDisabled := false, inputValue := "hi" }

/-! ## Helper lemmas -/

/-- Any `typeText` interval given at least `text.length + 1 - i` callbacks
terminates with the rendered full text, independently of how many
further callbacks would have run. -/
theorem revealRun_complete (marked : Option (String → String)) :
    ∀ (n : Nat) (rv : Reveal), rv.i ≤ rv.text.length →
      rv.text.length + 1 ≤ rv.i + n →
      revealRun marked n rv = Sum.inr (renderMarkdown marked rv.text) := by
  intro n
  induction n with
  | zero =>
    intro rv h1 h2
    omega
  | succ n ih =>
    intro rv h1 h2
    by_cases hle : rv.text.length ≤ rv.i
    · simp [revealRun, tickReveal, hle]
    · have hstep : revealRun marked (n + 1) rv =
          revealRun marked n { rv with i := rv.i + 1 } := by
        simp [revealRun, tickReveal, hle]
      rw [hstep]
      rw [ih { rv with i := rv.i + 1 } (by simp; omega) (by simp; omega)]

/-- A tick of a finished reveal finalizes it: the bubble receives the
rendered full text, the interval is cleared, `isTyping` is cleared and
the send button is re-enabled. -/
theorem step_tick_final (marked : Option (String → String)) (s : St)
    (rv : Reveal) (rest : List Reveal)
    (hr : s.reveals = rv :: rest) (hf : rv.text.length ≤ rv.i) :
    step marked s .tick =
      { s with
        reveals := rest
        log := updateLastAi (renderMarkdown marked rv.text) s.log
        isTyping := false
        sendDisabled := false } := by
  simp [step, hr, tickReveal, hf]

/-- Appending a system notice to a welcome-only (or empty) log does not
change which welcome entry `clearChat` keeps. -/
theorem keepWelcome_append_system (l : List Msg) (x : String) :
    keepWelcome (keepWelcome l ++ [Msg.system x]) = keepWelcome l := by
  by_cases h : l.any isWelcome = true <;>
    simp [keepWelcome, h, isWelcome]

/-- Escaped text contains no `<`, hence can never open a tag when
inserted through `innerHTML`. -/
theorem escList_no_lt (l : List Char) : '<' ∉ escList l := by
  induction l with
  | nil => simp [escList]
  | cons c cs ih =>
    intro hmem
    rw [escList, List.mem_append] at hmem
    rcases hmem with h | h
    · revert h
      unfold escChar
      by_cases h1 : c = '&'
      · simp [h1]
      · by_cases h2 : c = '<'
        · simp [h1, h2]
        · by_cases h3 : c = '>'
          · simp [h1, h2, h3]
          · simp [h1, h2, h3]
            exact fun hc => h2 hc.symm
    · exact ih h

/-- Unescaping one escaped character recovers it. -/
theorem unesc_escChar (c : Char) (r : List Char) :
    unescList (escChar c ++ r) = c :: unescList r := by
  unfold escChar
  by_cases h1 : c = '&'
  · simp [h1, unescList]
  · by_cases h2 : c = '<'
    · simp [h1, h2, unescList]
    · by_cases h3 : c = '>'
      · simp [h1, h2, h3, unescList]
      · simp [h1, h2, h3]
        rw [unescList.eq_def]
        split <;> simp_all

/-- Browser escaping loses no information: parsing the serialized text
back yields the original character sequence. -/
theorem unesc_esc (l : List Char) : unescList (escList l) = l := by
  induction l with
  | nil => rfl
  | cons c cs ih => rw [escList, unesc_escChar, ih]

theorem core_CInv (s : St) (h : CInv s) : CInv (sendMessageCore s) := by
  by_cases hg : jsTrim s.inputValue = "" ∨ s.isTyping = true
  · unfold sendMessageCore
    rw [if_pos hg]
    exact h
  · have ht2 : s.isTyping = false := by
      cases hb : s.isTyping
      · rfl
      · exact absurd (Or.inr hb) hg
    obtain ⟨hle, hiff⟩ := h
    have hs0 : s.pending.length + s.reveals.length = 0 := by
      rcases Nat.eq_or_lt_of_le hle with h1 | h1
      · have hbad := hiff.mpr h1
        rw [ht2] at hbad
        exact absurd hbad (by simp)
      · omega
    unfold sendMessageCore
    rw [if_neg hg]
    constructor
    · simp
      omega
    · simp
      omega

theorem step_CInv (marked : Option (String → String)) (s : St) (e : Ev)
    (h : CInv s) : CInv (step marked s e) := by
  obtain ⟨hle, hiff⟩ := h
  cases e with
  | upload r =>
    cases r with
    | netError => simpa [step, uploadFail, CInv] using ⟨hle, hiff⟩
    | resp ok body =>
      cases body with
      | none => simpa [step, uploadFail, CInv] using ⟨hle, hiff⟩
      | some b =>
        by_cases hok : ok = true <;>
          simpa [step, uploadFail, CInv, hok] using ⟨hle, hiff⟩
  | types v =>
    by_cases hc : s.chatDisabled = true <;>
      simpa [step, CInv, hc] using ⟨hle, hiff⟩
  | click =>
    by_cases hs : s.sendDisabled = true
    · simpa [step, CInv, hs] using ⟨hle, hiff⟩
    · have := core_CInv s ⟨hle, hiff⟩
      simpa [step, hs] using this
  | enter =>
    by_cases hc : s.chatDisabled = true
    · simpa [step, CInv, hc] using ⟨hle, hiff⟩
    · have := core_CInv s ⟨hle, hiff⟩
      simpa [step, hc] using this
  | quick p =>
    by_cases hc : s.chatDisabled = true
    · simpa [step, CInv, hc] using ⟨hle, hiff⟩
    · have h2 : CInv { s with inputValue := p } := ⟨hle, hiff⟩
      have := core_CInv { s with inputValue := p } h2
      simpa [step, hc] using this
  | settle r =>
    cases hp : s.pending with
    | nil =>
      have heq : step marked s (.settle r) = s := by simp [step, hp]
      rw [heq]
      exact ⟨hle, hiff⟩
    | cons q rest =>
      rw [hp] at hle hiff
      simp at hle hiff
      have hrest : rest.length = 0 := by omega
      have hrev : s.reveals.length = 0 := by omega
      have ht : s.isTyping = true := hiff.mpr (by omega)
      constructor
      · simp [step, hp]
        omega
      · simp [step, hp, ht]
        omega
  | tick =>
    cases hr : s.reveals with
    | nil =>
      have heq : step marked s .tick = s := by simp [step, hr]
      rw [heq]
      exact ⟨hle, hiff⟩
    | cons rv rest =>
      rw [hr] at hle hiff
      simp at hle hiff
      have hpend : s.pending.length = 0 := by omega
      have hrest : rest.length = 0 := by omega
      have ht : s.isTyping = true := hiff.mpr (by omega)
      by_cases hf : rv.text.length ≤ rv.i
      · constructor
        · simp [step, hr, tickReveal, hf]
          omega
        · simp [step, hr, tickReveal, hf]
          omega
      · constructor
        · simp [step, hr, tickReveal, hf]
          omega
        · simp [step, hr, tickReveal, hf, ht]
          omega
  | clear => simpa [step, CInv] using ⟨hle, hiff⟩
  | reload => simp [step, CInv, init]

theorem foldl_CInv (marked : Option (String → String)) (l : List Ev) :
    ∀ s : St, CInv s → CInv (l.foldl (step marked) s) := by
  induction l with
  | nil => intro s h; exact h
  | cons e t ih => intro s h; exact ih _ (step_CInv marked s e h)

theorem runEv_CInv (marked : Option (String → String)) (l : List Ev) :
    CInv (runEv marked l) :=
  foldl_CInv marked l init (by simp [CInv, init])

theorem core_Inv (s : St) (hc : s.chatDisabled = false) :
    Inv (sendMessageCore s) := by
  intro hcd
  unfold sendMessageCore at hcd
  by_cases hg : jsTrim s.inputValue = "" ∨ s.isTyping = true
  · rw [if_pos hg] at hcd
    rw [hcd] at hc
    exact absurd hc (by simp)
  · rw [if_neg hg] at hcd
    have hcd2 : s.chatDisabled = true := hcd
    rw [hcd2] at hc
    exact absurd hc (by simp)

theorem step_Inv (marked : Option (String → String)) (s : St) (e : Ev)
    (h : Inv s) : Inv (step marked s e) := by
  cases e with
  | upload r =>
    cases r with
    | netError =>
      intro hcd
      exact h hcd
    | resp ok body =>
      cases body with
      | none =>
        intro hcd
        exact h hcd
      | some b =>
        by_cases hok : ok = true
        · intro hcd
          simp [step, uploadFail, hok] at hcd
        · have heq : step marked s (.upload (.resp ok (some b))) =
              uploadFail { s with
                uploadAreaVisible := false
                processingVisible := true
                progressWidth := "100%"
                uploadRequests := s.uploadRequests + 1 } := by
            simp [step, hok]
          rw [heq]
          intro hcd
          exact h hcd
  | types v =>
    by_cases hc : s.chatDisabled = true
    · simpa [step, hc] using h
    · have heq : step marked s (.types v) = { s with inputValue := v } := by
        simp [step, hc]
      rw [heq]
      intro hcd
      exact absurd hcd hc
  | click =>
    by_cases hs : s.sendDisabled = true
    · simpa [step, hs] using h
    · have hc : s.chatDisabled = false := by
        cases hb : s.chatDisabled
        · rfl
        · exact absurd (h hb).1 hs
      have heq : step marked s .click = sendMessageCore s := by simp [step, hs]
      rw [heq]
      exact core_Inv s hc
  | enter =>
    by_cases hcb : s.chatDisabled = true
    · simpa [step, hcb] using h
    · have hc : s.chatDisabled = false := by
        cases hb : s.chatDisabled
        · rfl
        · exact absurd hb hcb
      have heq : step marked s .enter = sendMessageCore s := by simp [step, hcb]
      rw [heq]
      exact core_Inv s hc
  | quick p =>
    by_cases hcb : s.chatDisabled = true
    · have heq : step marked s (.quick p) =
          { s with log := s.log ++
              [Msg.system (escapeHtml "⚠️ Please upload a document first")] } := by
        simp [step, hcb]
      rw [heq]
      intro hcd
      exact h hcb
    · have hc : s.chatDisabled = false := by
        cases hb : s.chatDisabled
        · rfl
        · exact absurd hb hcb
      have heq : step marked s (.quick p) =
          sendMessageCore { s with inputValue := p } := by
        simp [step, hcb]
      rw [heq]
      exact core_Inv { s with inputValue := p } hc
  | settle r =>
    cases hp : s.pending with
    | nil =>
      have heq : step marked s (.settle r) = s := by simp [step, hp]
      rw [heq]
      exact h
    | cons q rest =>
      intro hcd
      simp [step, hp] at hcd
      have h2 := (h hcd).2.1
      rw [hp] at h2
      exact absurd h2 (by simp)
  | tick =>
    cases hr : s.reveals with
    | nil =>
      have heq : step marked s .tick = s := by simp [step, hr]
      rw [heq]
      exact h
    | cons rv rest =>
      intro hcd
      by_cases hf : rv.text.length ≤ rv.i
      · simp [step, hr, tickReveal, hf] at hcd
        have h2 := (h hcd).2.2.1
        rw [hr] at h2
        exact absurd h2 (by simp)
      · simp [step, hr, tickReveal, hf] at hcd
        have h2 := (h hcd).2.2.1
        rw [hr] at h2
        exact absurd h2 (by simp)
  | clear =>
    intro hcd
    exact h hcd
  | reload =>
    intro hcd
    simp [step, init]

theorem foldl_Inv (marked : Option (String → String)) (l : List Ev) :
    ∀ s : St, Inv s → Inv (l.foldl (step marked) s) := by
  induction l with
  | nil => intro s h; exact h
  | cons e t ih => intro s h; exact ih _ (step_Inv marked s e h)

/-- Every reachable page state satisfies the chat-disabled invariant. -/
theorem runEv_Inv (marked : Option (String → String)) (l : List Ev) :
    Inv (runEv marked l) :=
  foldl_Inv marked l init (by intro hcd; simp [init])

/-! ## The claims -/

/-- C1.  The claim says the displayed progress percentages form a
non-decreasing sequence and reach 100 only after the network response is
known.  In the part_000 variant both parts fail: `simulateProgress` is
awaited before the `fetch` is even issued, so "100%" is displayed at
t = 2140 ms while the request starts at t = 2200 ms; and the
concurrently running `simulateSideLoading` timer keeps writing low
percentages after `simulateProgress` has written high ones — "81%" is
written at t = 1000 ms and "19%" at t = 1140 ms, so in time order the
displayed sequence decreases.  This contradicts the comment in the
source ("Stop at 80% for API call, then continue to 100%") as well as
the claim. -/
theorem c1_progress_bug :
    ((1000, 81) ∈ P0.progressWrites ∧ (1140, 19) ∈ P0.progressWrites ∧
      1000 < 1140 ∧ 19 < 81) ∧
    ((2140, 100) ∈ P0.progressWrites ∧ 2140 < P0.fetchStart) := by
  decide

/-- C2 counterexample.  A non-2xx response with a parseable JSON body is
a failure according to the claim, yet script.js's `sendMessage` never
consults `res.ok`: it begins the reveal with the body's `answer` field
("boom" here), not with the fixed error string. -/
theorem c2_counterexample :
    askFailedClaim (AskNet.resp false (some ⟨some "boom"⟩)) ∧
      askRevealText (AskNet.resp false (some ⟨some "boom"⟩)) ≠
        "❌ Error getting response" := by
  constructor
  · exact Or.inl rfl
  · decide

/-- C2 (amended).  For every chat submission whose ask request fails
with a network error or a malformed JSON body, the reveal effect begins
with the fixed string "❌ Error getting response"; a non-2xx response
with parseable JSON is treated like a success.  In every case the
settlement of an in-flight request begins exactly one reveal carrying
`askRevealText r`, and that reveal terminates in the rendered assistant
message, so the exchange always ends with a terminal assistant turn. -/
theorem c2_amended (marked : Option (String → String)) :
    (∀ r : AskNet, askFailed r → askRevealText r = "❌ Error getting response") ∧
    (∀ (s : St) (q : String) (rest : List String) (r : AskNet),
      s.pending = q :: rest →
      step marked s (.settle r) =
        { s with
          pending := rest
          log := updateLastAi "" s.log
          reveals := s.reveals ++ [⟨askRevealText r, 0⟩] }) ∧
    (∀ r : AskNet,
      revealRun marked ((askRevealText r).length + 1) ⟨askRevealText r, 0⟩ =
        Sum.inr (renderMarkdown marked (askRevealText r))) := by
  refine ⟨?_, ?_, ?_⟩
  · intro r hf
    cases r with
    | netError => rfl
    | resp ok body =>
      have hb : body = none := hf
      rw [hb]
      rfl
  · intro s q rest r hp
    simp [step, hp]
  · intro r
    exact revealRun_complete marked _ _ (Nat.zero_le _) (by simp)

/-- C2 witness: a network error settles into the fixed error string and
its reveal terminates with the rendered error message. -/
theorem c2_witness :
    askRevealText AskNet.netError = "❌ Error getting response" ∧
    revealRun none ((askRevealText AskNet.netError).length + 1)
        ⟨askRevealText AskNet.netError, 0⟩ =
      Sum.inr (renderMarkdown none (askRevealText AskNet.netError)) :=
  ⟨(c2_amended none).1 AskNet.netError trivial,
   (c2_amended none).2.2 AskNet.netError⟩

/-- C3.  The reveal effect started on any answer string, given at least
`length + 1` interval callbacks, terminates with exactly the direct
markdown rendering of the full string, however many intermediate prefix
ticks occurred; and the finalizing tick clears `isTyping`, re-enables
the send button, and writes the rendered text into the assistant
bubble. -/
theorem c3_reveal_roundtrip (marked : Option (String → String)) :
    (∀ (t : String) (n : Nat), t.length + 1 ≤ n →
      revealRun marked n ⟨t, 0⟩ = Sum.inr (renderMarkdown marked t)) ∧
    (∀ (s : St) (rv : Reveal) (rest : List Reveal),
      s.reveals = rv :: rest → rv.text.length ≤ rv.i →
      (step marked s .tick).isTyping = false ∧
      (step marked s .tick).sendDisabled = false ∧
      (step marked s .tick).log =
        updateLastAi (renderMarkdown marked rv.text) s.log) := by
  constructor
  · intro t n hn
    exact revealRun_complete marked n ⟨t, 0⟩ (Nat.zero_le _) (by simpa using hn)
  · intro s rv rest hr hf
    rw [step_tick_final marked s rv rest hr hf]
    exact ⟨rfl, rfl, rfl⟩

/-- C3 witness: the two-character answer "hi" revealed with three ticks
ends as its rendered form, and a finished reveal's tick clears the
flags. -/
theorem c3_witness :
    revealRun none 3 ⟨"hi", 0⟩ = Sum.inr (renderMarkdown none "hi") ∧
    (step none { init with reveals := [⟨"hi", 2⟩] } .tick).isTyping = false :=
  ⟨(c3_reveal_roundtrip none).1 "hi" 3 (by decide),
   ((c3_reveal_roundtrip none).2 { init with reveals := [⟨"hi", 2⟩] }
      ⟨"hi", 2⟩ [] rfl (by decide)).1⟩

/-- C4 counterexample.  In the reachable state `c4ex` a reveal is in
progress, and the quick-prompt submission `sendQuickPrompt("Summarize")`
appends no message — but it is not free of other state changes: it
overwrites the chat input with the prompt before `sendMessage`'s
`isTyping` guard rejects the submission, and the input is never
restored. -/
theorem c4_counterexample :
    c4ex.isTyping = true ∧
    c4ex.inputValue = "" ∧
    (step none c4ex (.quick "Summarize")).log = c4ex.log ∧
    (step none c4ex (.quick "Summarize")).inputValue = "Summarize" := by
  refine ⟨by decide, by decide, by decide, by decide⟩

/-- C4 (amended).  A chat submission made while chat is disabled, with
empty trimmed question text, or while a reveal is in progress appends no
user or assistant message: the state is unchanged, or changed only by
the single advisory system notice (quick prompt while chat is
disabled), or changed only by the chat input being overwritten with the
prompt (quick prompt that passes the disabled check but is rejected by
the empty/reveal-in-progress guard of `sendMessage`). -/
theorem c4_amended (marked : Option (String → String)) (s : St) (e : Ev)
    (hInv : Inv s) (hsub : isSubmit e = true)
    (hg : s.chatDisabled = true ∨ questionOf s e = "" ∨ s.isTyping = true) :
    step marked s e = s ∨
    step marked s e =
      { s with log := s.log ++
          [Msg.system (escapeHtml "⚠️ Please upload a document first")] } ∨
    (∃ p : String, e = .quick p ∧ step marked s e = { s with inputValue := p }) := by
  cases e with
  | upload r => simp [isSubmit] at hsub
  | types v => simp [isSubmit] at hsub
  | settle r => simp [isSubmit] at hsub
  | tick => simp [isSubmit] at hsub
  | clear => simp [isSubmit] at hsub
  | reload => simp [isSubmit] at hsub
  | click =>
    by_cases hs : s.sendDisabled = true
    · exact Or.inl (by simp [step, hs])
    · have hc : ¬ s.chatDisabled = true := fun hb => hs (hInv hb).1
      have hg2 : jsTrim s.inputValue = "" ∨ s.isTyping = true := by
        rcases hg with h | h | h
        · exact absurd h hc
        · exact Or.inl h
        · exact Or.inr h
      refine Or.inl ?_
      have heq : step marked s .click = sendMessageCore s := by simp [step, hs]
      rw [heq]
      unfold sendMessageCore
      rw [if_pos hg2]
  | enter =>
    by_cases hcb : s.chatDisabled = true
    · exact Or.inl (by simp [step, hcb])
    · have hg2 : jsTrim s.inputValue = "" ∨ s.isTyping = true := by
        rcases hg with h | h | h
        · exact absurd h hcb
        · exact Or.inl h
        · exact Or.inr h
      refine Or.inl ?_
      have heq : step marked s .enter = sendMessageCore s := by simp [step, hcb]
      rw [heq]
      unfold sendMessageCore
      rw [if_pos hg2]
  | quick p =>
    by_cases hcb : s.chatDisabled = true
    · exact Or.inr (Or.inl (by simp [step, hcb]))
    · have hg2 : jsTrim p = "" ∨ s.isTyping = true := by
        rcases hg with h | h | h
        · exact absurd h hcb
        · exact Or.inl h
        · exact Or.inr h
      refine Or.inr (Or.inr ⟨p, rfl, ?_⟩)
      have heq : step marked s (.quick p) =
          sendMessageCore { s with inputValue := p } := by simp [step, hcb]
      rw [heq]
      unfold sendMessageCore
      rw [if_pos (by exact hg2)]

/-- C4 witness: a quick prompt before any upload, in the initial state,
falls under the guard and at most appends the advisory notice. -/
theorem c4_witness :
    step none init (.quick "hello") = init ∨
    step none init (.quick "hello") =
      { init with log := init.log ++
          [Msg.system (escapeHtml "⚠️ Please upload a document first")] } ∨
    (∃ p : String, Ev.quick "hello" = Ev.quick p ∧
      step none init (.quick "hello") = { init with inputValue := p }) :=
  c4_amended none init (.quick "hello") (fun _ => ⟨rfl, rfl, rfl, rfl⟩) rfl (Or.inl rfl)

/-- C5.  At most one reveal effect is live at any reachable state, and
in fact at most one exchange (in-flight ask request or live reveal) is
outstanding: the `isTyping` guard prevents a second reveal from starting
while one is active, so displayed characters never interleave and a
reveal's final text is the rendering of its own full string. -/
theorem c5_single_reveal (marked : Option (String → String)) (l : List Ev) :
    (runEv marked l).reveals.length ≤ 1 ∧
    (runEv marked l).pending.length + (runEv marked l).reveals.length ≤ 1 := by
  have h := (runEv_CInv marked l).1
  exact ⟨by omega, h⟩

/-- C6.  On every upload failure — network error, unparseable body, or
non-success status — the script.js handler alerts once, restores the
upload area, hides the processing overlay and results pane, and resets
the progress width to its 0% floor; everything else (including the
chat-disabled flag and the message log) is untouched and exactly one
request was made, so chat stays disabled when it was disabled and no
retry happens.  The part_000 `resetUploadUI` likewise resets its
progress text to the 10% floor and leaves chat enablement alone. -/
theorem c6_upload_failure (marked : Option (String → String)) (s : St)
    (r : UploadNet) (h : uploadFailed r) :
    step marked s (.upload r) =
      { s with
        uploadRequests := s.uploadRequests + 1
        alerts := s.alerts + 1
        uploadAreaVisible := true
        processingVisible := false
        resultsVisible := false
        progressWidth := "0%" } ∧
    (∀ p : P0.State, P0.resetUploadUI p =
      { p with
        uploadAreaVisible := true
        processingVisible := false
        successVisible := false
        resultsVisible := false
        progressPercent := "10%"
        fileInputValue := "" }) := by
  constructor
  · cases r with
    | netError => rfl
    | resp ok body =>
      cases body with
      | none => rfl
      | some b =>
        rcases h with h | h
        · exact absurd h (by simp)
        · rw [h]
          rfl
  · intro p
    rfl

/-- C6 witness: a network-error upload from the initial state. -/
theorem c6_witness :
    step none init (.upload .netError) =
      { init with
        uploadRequests := init.uploadRequests + 1
        alerts := init.alerts + 1
        uploadAreaVisible := true
        processingVisible := false
        resultsVisible := false
        progressWidth := "0%" } :=
  (c6_upload_failure none init .netError trivial).1

/-- C7 counterexample.  From a part_000 state whose progress text reads
"100%" after a finished upload, `startNewSession` leaves the progress at
"100%": it is not cleared to the 10% floor value used by
`resetUploadUI`, contrary to the claim. -/
theorem c7_counterexample :
    (P0.startNewSession c7ex).progressPercent = "100%" ∧
    (P0.startNewSession c7ex).progressPercent ≠ "10%" := by
  refine ⟨by decide, by decide⟩

/-- C7 (amended).  The part_000 new-session operation, from any state,
restores the upload displays and file input, clears the message log down
to the pinned welcome entry plus the "chat cleared" and "new session"
notices, disables the chat controls, and resets the summary display to
its placeholder — but it does not clear the progress value: the progress
percent text keeps whatever value it had. -/
theorem c7_amended (s : P0.State) :
    P0.startNewSession s =
      { uploadAreaVisible := true
        processingVisible := false
        successVisible := false
        resultsVisible := false
        fileInputValue := ""
        progressPercent := s.progressPercent
        chatDisabled := true
        sendDisabled := true
        inputValue := ""
        summaryHtml := "<p>Your AI-generated summary will appear here...</p>"
        log := keepWelcome s.log ++
          [Msg.system (escapeHtml
            "💬 Chat cleared. You can continue asking questions about your document."),
           Msg.system (escapeHtml
            "🔄 New session started. Upload a document to begin.")] } := by
  unfold P0.startNewSession P0.clearChat
  simp

/-- C8 counterexample.  After a single clear from the initial state the
log is not the pinned welcome entry only: `clearChat` also appends the
"💬 Chat cleared" system notice. -/
theorem c8_counterexample :
    (step none init .clear).log =
      [Msg.welcome, Msg.system (escapeHtml "💬 Chat cleared")] ∧
    (step none init .clear).log ≠ [Msg.welcome] := by
  refine ⟨by decide, by decide⟩

/-- C8 (amended).  `clearChat` is idempotent — clearing twice yields the
same state as clearing once, namely the pinned welcome entry (when one
exists) followed by one "chat cleared" system notice, with the input
reset — and it leaves chat enablement, the summary content and the
progress value untouched. -/
theorem c8_amended (marked : Option (String → String)) (s : St) :
    step marked (step marked s .clear) .clear = step marked s .clear ∧
    (step marked s .clear).chatDisabled = s.chatDisabled ∧
    (step marked s .clear).sendDisabled = s.sendDisabled ∧
    (step marked s .clear).summaryHtml = s.summaryHtml ∧
    (step marked s .clear).progressWidth = s.progressWidth ∧
    (step marked s .clear).log =
      keepWelcome s.log ++ [Msg.system (escapeHtml "💬 Chat cleared")] := by
  refine ⟨?_, rfl, rfl, rfl, rfl, rfl⟩
  simp [step, keepWelcome_append_system]

/-- C9 counterexample.  When the summary field is absent, the part_000
success path extracts "Document processed successfully!", not the empty
string the claim requires. -/
theorem c9_counterexample :
    P0.summaryText ⟨none⟩ = "Document processed successfully!" ∧
    P0.summaryText ⟨none⟩ ≠ "" := by
  refine ⟨rfl, by decide⟩

/-- C9 (amended).  On a successful upload the rendered summary equals the
markdown rendering of the extracted summary string; the extraction
defaults to the empty string in the script.js variant and to the fixed
placeholder "Document processed successfully!" in the part_000 variant
when the summary field is absent (or empty, JavaScript `||` being a
falsy test). -/
theorem c9_amended (marked : Option (String → String)) (s : St) (b : UploadBody) :
    (step marked s (.upload (.resp true (some b)))).summaryHtml =
      renderMarkdown marked (jsDefault b.summary "") ∧
    jsDefault none "" = "" ∧
    P0.summaryHtmlOf marked b =
      renderMarkdown marked (jsDefault b.summary "Document processed successfully!") := by
  exact ⟨rfl, rfl, rfl⟩

/-- C10.  Escaped text can never open markup (it contains no `<`) and is
lossless (unescaping recovers the original text); every user bubble and
every system bubble is inserted with its text escaped, and only the
assistant bubble receives markdown-rendered content, written by the
finalizing tick of the reveal. -/
theorem c10_escaping (marked : Option (String → String)) :
    (∀ t : String, '<' ∉ (escapeHtml t).data ∧
      unescList (escapeHtml t).data = t.data) ∧
    (∀ s : St, s.sendDisabled = false → jsTrim s.inputValue ≠ "" →
      s.isTyping = false →
      (step marked s .click).log =
        s.log ++ [Msg.user (escapeHtml (jsTrim s.inputValue)), Msg.ai ""]) ∧
    (∀ (s : St) (p : String), s.chatDisabled = true →
      (step marked s (.quick p)).log =
        s.log ++ [Msg.system (escapeHtml "⚠️ Please upload a document first")]) ∧
    (∀ (s : St) (rv : Reveal) (rest : List Reveal),
      s.reveals = rv :: rest → rv.text.length ≤ rv.i →
      (step marked s .tick).log =
        updateLastAi (renderMarkdown marked rv.text) s.log) := by
  refine ⟨?_, ?_, ?_, ?_⟩
  · intro t
    exact ⟨escList_no_lt t.data, unesc_esc t.data⟩
  · intro s hs hq ht
    have heq : step marked s .click = sendMessageCore s := by simp [step, hs]
    rw [heq]
    unfold sendMessageCore
    rw [if_neg (by simp [hq, ht])]
  · intro s p hc
    simp [step, hc]
  · intro s rv rest hr hf
    rw [step_tick_final marked s rv rest hr hf]

/-- C10 witness: escaping a tag-bearing string yields no `<`, unescaping
recovers an ampersand-bearing string, and a concrete send appends the
escaped user bubble. -/
theorem c10_witness :
    '<' ∉ (escapeHtml "<b>x</b>").data ∧
    unescList (escapeHtml "a&b").data = "a&b".data ∧
    (step none c10s .click).log =
      c10s.log ++ [Msg.user (escapeHtml (jsTrim c10s.inputValue)), Msg.ai ""] :=
  ⟨((c10_escaping none).1 "<b>x</b>").1,
   ((c10_escaping none).1 "a&b").2,
   (c10_escaping none).2.1 c10s rfl (by decide) rfl⟩

end DocuAI
